import Mathlib

/-!
Verification of the 2-of-2 multisig contract (contracts/2of2/src/index.ts).

Shallow embedding: byte buffers are `List Nat`; the environment-supplied
cryptographic primitives (secp256k1 recoverable-key recovery followed by
uncompressed serialization, and the ckb content hash) are fields of an
`Env` record of pure functions.  The try/catch around the recovery
primitive in the source is modelled by the primitive returning `Option`.
The script-args buffer, witness lock buffer and transaction hash, which
the source loads from the host, are explicit parameters of `main`.
Logging calls in the source are side-effect-free diagnostics and are
omitted.
-/

namespace TwoOfTwo

-- Script Args layout constants
def SCRIPT_ARGS_PREFIX_LENGTH : Nat := 2
def CKB_JS_VM_CODE_HASH_LENGTH : Nat := 32
def HASH_TYPE_LENGTH : Nat := 1
def THRESHOLD_LENGTH : Nat := 1
def PUBKEY_COUNT_LENGTH : Nat := 1
def PUBKEY_HASH_LENGTH : Nat := 20

def PUBKEY_HASH_START_OFFSET : Nat :=
  SCRIPT_ARGS_PREFIX_LENGTH +
  CKB_JS_VM_CODE_HASH_LENGTH +
  HASH_TYPE_LENGTH +
  THRESHOLD_LENGTH +
  PUBKEY_COUNT_LENGTH

def FIRST_PUBKEY_HASH_OFFSET : Nat := PUBKEY_HASH_START_OFFSET

def SECOND_PUBKEY_HASH_OFFSET : Nat := FIRST_PUBKEY_HASH_OFFSET + PUBKEY_HASH_LENGTH

-- Witness data layout constants
def SIGNATURE_LENGTH : Nat := 65

def PUBKEY_INDEX_LENGTH : Nat := 1

def WITNESS_DATA_TOTAL_LENGTH : Nat :=
  SIGNATURE_LENGTH * 2 + PUBKEY_INDEX_LENGTH * 2

-- Witness data offsets
def FIRST_SIGNATURE_OFFSET : Nat := 0

def SECOND_SIGNATURE_OFFSET : Nat := SIGNATURE_LENGTH

def FIRST_PUBKEY_INDEX_OFFSET : Nat := SIGNATURE_LENGTH * 2

def SECOND_PUBKEY_INDEX_OFFSET : Nat :=
  FIRST_PUBKEY_INDEX_OFFSET + PUBKEY_INDEX_LENGTH

-- Signature verification constants
def SIGNATURE_DATA_LENGTH : Nat := 64

def RECOVERY_ID_OFFSET : Nat := 64

def BLAKE160_HASH_LENGTH : Nat := 20

-- Contract exit codes
def SUCCESS_CODE : Nat := 0
def INVALID_SIGNATURE : Nat := 1
def INVALID_SCRIPT_ARGS_LENGTH : Nat := 2
def INVALID_WITNESS_DATA_LENGTH : Nat := 3
def INVALID_PUBKEY_INDEX : Nat := 4
def SIGNATURE_RECOVERY_FAILED : Nat := 5

-- Public key indices
def FIRST_PUBKEY_INDEX : Nat := 0
def SECOND_PUBKEY_INDEX : Nat := 1

-- Expected data lengths for validation
def EXPECTED_SCRIPT_ARGS_LENGTH : Nat :=
  PUBKEY_HASH_START_OFFSET + PUBKEY_HASH_LENGTH * 2

def EXPECTED_WITNESS_DATA_LENGTH : Nat := WITNESS_DATA_TOTAL_LENGTH

/-- Environment-supplied primitives, as pure functions.
`recover sigData recId msgHash` models `bindings.secp256k1.recover`
followed by `bindings.secp256k1.serializePubkey (·, false)`, with the
source's try/catch mapped to `none`; `hashCkb` models the `hashCkb`
content hash from the standard library. -/
structure Env where
  recover : List Nat → Nat → List Nat → Option (List Nat)
  hashCkb : List Nat → List Nat

/-- Result of `loadAndValidateInputs` on the success path: the two pubkey
hashes, the two signature slices and the two pubkey indices. -/
structure InputData where
  pubkeyHashes : List Nat × List Nat
  signatures : List Nat × List Nat
  pubkeyIndices : Nat × Nat
  deriving DecidableEq, Repr

/-- Embedding of `validatePubkeyIndices` (indices passed as two arguments
instead of a two-element array). -/
def validatePubkeyIndices (index1 index2 : Nat) : Nat :=
  if index1 > SECOND_PUBKEY_INDEX ∨ index2 > SECOND_PUBKEY_INDEX then
    INVALID_PUBKEY_INDEX
  else if index1 = index2 then
    INVALID_PUBKEY_INDEX
  else
    SUCCESS_CODE

/-- Embedding of `loadAndValidateInputs`; the host-loaded buffers
(`HighLevel.loadScript().args` and the witness lock field) are explicit
parameters.  `Uint8Array.slice a b` is `(List.drop a) ∘ (List.take (b - a))`
and indexing is `List.getD` (all indexing below is in bounds once the
length checks have passed). -/
def loadAndValidateInputs (scriptArgs witnessData : List Nat) :
    Except Nat InputData :=
  if scriptArgs.length < EXPECTED_SCRIPT_ARGS_LENGTH then
    Except.error INVALID_SCRIPT_ARGS_LENGTH
  else
    let pubkeyHashes :=
      ((scriptArgs.drop FIRST_PUBKEY_HASH_OFFSET).take PUBKEY_HASH_LENGTH,
       (scriptArgs.drop SECOND_PUBKEY_HASH_OFFSET).take PUBKEY_HASH_LENGTH)
    if witnessData.length ≠ EXPECTED_WITNESS_DATA_LENGTH then
      Except.error INVALID_WITNESS_DATA_LENGTH
    else
      let signatures :=
        ((witnessData.drop FIRST_SIGNATURE_OFFSET).take SIGNATURE_LENGTH,
         (witnessData.drop SECOND_SIGNATURE_OFFSET).take SIGNATURE_LENGTH)
      let pubkeyIndices :=
        (witnessData.getD FIRST_PUBKEY_INDEX_OFFSET 0,
         witnessData.getD SECOND_PUBKEY_INDEX_OFFSET 0)
      let validationResult :=
        validatePubkeyIndices pubkeyIndices.1 pubkeyIndices.2
      if validationResult ≠ SUCCESS_CODE then
        Except.error validationResult
      else
        Except.ok ⟨pubkeyHashes, signatures, pubkeyIndices⟩

/-- Embedding of `recoverPublicKey`. -/
def recoverPublicKey (env : Env) (message_hash signature : List Nat) :
    Option (List Nat) :=
  if signature.length ≠ SIGNATURE_LENGTH then
    none
  else
    let signature_data := signature.take SIGNATURE_DATA_LENGTH
    let recovery_id := signature.getD RECOVERY_ID_OFFSET 0
    if recovery_id > 3 then
      none
    else
      env.recover signature_data recovery_id message_hash

/-- Embedding of `hashPublicKey`: ckb content hash truncated to 20 bytes. -/
def hashPublicKey (env : Env) (pubkey : List Nat) : List Nat :=
  (env.hashCkb pubkey).take BLAKE160_HASH_LENGTH

/-- Embedding of `getExpectedHash`. -/
def getExpectedHash (pubkeyHashes : List Nat × List Nat) (pubkeyIndex : Nat) :
    List Nat :=
  if pubkeyIndex = FIRST_PUBKEY_INDEX then pubkeyHashes.1 else pubkeyHashes.2

/-- Embedding of `verifySignature`; the source passes the arguments in a
`SignatureVerificationParams` object whose `signatureName` field is only
used for logging and is omitted.  `bytesEq` on the two hash buffers is
list equality. -/
def verifySignature (env : Env) (messageHash signature : List Nat)
    (pubkeyHashes : List Nat × List Nat) (pubkeyIndex : Nat) : Nat :=
  match recoverPublicKey env messageHash signature with
  | none => SIGNATURE_RECOVERY_FAILED
  | some recoveredPubkey =>
    let recoveredHash := hashPublicKey env recoveredPubkey
    let expectedHash := getExpectedHash pubkeyHashes pubkeyIndex
    if recoveredHash ≠ expectedHash then
      INVALID_SIGNATURE
    else
      SUCCESS_CODE

/-- Embedding of `main`; `txHash` is the value of
`getSigningMessageHash` (the host-loaded transaction hash). -/
def main (env : Env) (scriptArgs witnessData txHash : List Nat) : Nat :=
  match loadAndValidateInputs scriptArgs witnessData with
  | Except.error code => code
  | Except.ok inputData =>
    let signingMessageHash := txHash
    let firstSigResult :=
      verifySignature env signingMessageHash inputData.signatures.1
        inputData.pubkeyHashes inputData.pubkeyIndices.1
    if firstSigResult ≠ SUCCESS_CODE then
      firstSigResult
    else
      let secondSigResult :=
        verifySignature env signingMessageHash inputData.signatures.2
          inputData.pubkeyHashes inputData.pubkeyIndices.2
      if secondSigResult ≠ SUCCESS_CODE then
        secondSigResult
      else
        SUCCESS_CODE

/-- Spec-side definition of the verifier, written from the spec's ordered
pipeline (§4.6): configuration length, proof length, selector validation,
then signature 0 before signature 1, returning the first failure. -/
def specOrderedPipeline (env : Env) (config proof txHash : List Nat) : Nat :=
  if config.length < 77 then 2
  else if proof.length ≠ 132 then 3
  else
    let selector0 := proof.getD 130 0
    let selector1 := proof.getD 131 0
    if 1 < selector0 ∨ 1 < selector1 ∨ selector0 = selector1 then 4
    else
      let fingerprints := ((config.drop 37).take 20, (config.drop 57).take 20)
      let result0 := verifySignature env txHash (proof.take 65) fingerprints selector0
      if result0 ≠ 0 then result0
      else
        let result1 :=
          verifySignature env txHash ((proof.drop 65).take 65) fingerprints selector1
        if result1 ≠ 0 then result1 else 0

/-- A concrete environment used only to instantiate universally
quantified statements: recovery always rejects, the hash is empty. -/
def envReject : Env where
  recover := fun _ _ _ => none
  hashCkb := fun _ => []

/-- A concrete environment whose recovery always succeeds with a fixed
key and whose content hash is the constant list of twenty-five 1s. -/
def envAccept : Env where
  recover := fun _ _ _ => some (List.replicate 65 1)
  hashCkb := fun _ => List.replicate 25 1

/-- A concrete environment agreeing with `envReject` on every discriminant
in 0–3 but accepting out-of-range discriminants. -/
def envRejectLow : Env where
  recover := fun _ recId _ => if recId ≤ 3 then none else some (List.replicate 65 2)
  hashCkb := fun _ => []

/-- A concrete 77-byte all-zero configuration buffer. -/
def saZeros77 : List Nat := List.replicate 77 0

/-- A concrete configuration buffer whose two fingerprints are both
twenty 1s (matching `envAccept`). -/
def saOnes : List Nat := List.replicate 37 0 ++ List.replicate 40 1

/-- A concrete 132-byte proof buffer with zero signatures and
selectors (0, 1). -/
def wd132 : List Nat := List.replicate 130 0 ++ [0, 1]

/-- A concrete 132-byte proof buffer agreeing with `wd132` except in the
bytes of signature 1. -/
def wdAltSig1 : List Nat := List.replicate 65 0 ++ (List.replicate 65 3 ++ [0, 1])

/-- A concrete 132-byte proof buffer whose signature 0 has recovery
discriminant 4 and whose selectors are (0, 1). -/
def wdBadRecId0 : List Nat :=
  List.replicate 64 0 ++ (4 :: (List.replicate 65 0 ++ [0, 1]))

/-- The parsed input data of `saZeros77` with `wd132`. -/
def d132 : InputData :=
  ⟨(List.replicate 20 0, List.replicate 20 0),
   (List.replicate 65 0, List.replicate 65 0), (0, 1)⟩

attribute [simp] SCRIPT_ARGS_PREFIX_LENGTH CKB_JS_VM_CODE_HASH_LENGTH
  HASH_TYPE_LENGTH THRESHOLD_LENGTH PUBKEY_COUNT_LENGTH PUBKEY_HASH_LENGTH
  PUBKEY_HASH_START_OFFSET FIRST_PUBKEY_HASH_OFFSET SECOND_PUBKEY_HASH_OFFSET
  SIGNATURE_LENGTH PUBKEY_INDEX_LENGTH WITNESS_DATA_TOTAL_LENGTH
  FIRST_SIGNATURE_OFFSET SECOND_SIGNATURE_OFFSET FIRST_PUBKEY_INDEX_OFFSET
  SECOND_PUBKEY_INDEX_OFFSET SIGNATURE_DATA_LENGTH RECOVERY_ID_OFFSET
  BLAKE160_HASH_LENGTH SUCCESS_CODE INVALID_SIGNATURE
  INVALID_SCRIPT_ARGS_LENGTH INVALID_WITNESS_DATA_LENGTH
  INVALID_PUBKEY_INDEX SIGNATURE_RECOVERY_FAILED FIRST_PUBKEY_INDEX
  SECOND_PUBKEY_INDEX EXPECTED_SCRIPT_ARGS_LENGTH EXPECTED_WITNESS_DATA_LENGTH

/-- The selector validator returns only 0 or 4. -/
lemma validatePubkeyIndices_cases (i j : Nat) :
    validatePubkeyIndices i j = 0 ∨ validatePubkeyIndices i j = 4 := by
  unfold validatePubkeyIndices
  split_ifs <;> simp

/-- Characterization of the selector validator's success. -/
lemma validatePubkeyIndices_eq_zero_iff (i j : Nat) :
    validatePubkeyIndices i j = 0 ↔ i ≤ 1 ∧ j ≤ 1 ∧ i ≠ j := by
  unfold validatePubkeyIndices
  split_ifs with h1 h2 <;> simp_all <;> omega

/-- Closed-form unfolding of `main` as nested conditionals. -/
lemma main_unfold (env : Env) (sa wd tx : List Nat) :
    main env sa wd tx =
      if sa.length < 77 then 2
      else if wd.length ≠ 132 then 3
      else if validatePubkeyIndices (wd.getD 130 0) (wd.getD 131 0) ≠ 0 then 4
      else if verifySignature env tx (wd.take 65)
          ((sa.drop 37).take 20, (sa.drop 57).take 20) (wd.getD 130 0) ≠ 0 then
        verifySignature env tx (wd.take 65)
          ((sa.drop 37).take 20, (sa.drop 57).take 20) (wd.getD 130 0)
      else if verifySignature env tx ((wd.drop 65).take 65)
          ((sa.drop 37).take 20, (sa.drop 57).take 20) (wd.getD 131 0) ≠ 0 then
        verifySignature env tx ((wd.drop 65).take 65)
          ((sa.drop 37).take 20, (sa.drop 57).take 20) (wd.getD 131 0)
      else 0 := by
  unfold main loadAndValidateInputs
  rcases validatePubkeyIndices_cases (wd.getD 130 0) (wd.getD 131 0) with hv | hv <;>
    split_ifs <;> simp_all

/-- The selector validator fails exactly when a selector exceeds 1 or the
two selectors coincide. -/
lemma validatePubkeyIndices_ne_zero_iff (i j : Nat) :
    validatePubkeyIndices i j ≠ 0 ↔ (1 < i ∨ 1 < j ∨ i = j) := by
  rw [Ne, validatePubkeyIndices_eq_zero_iff]
  omega

/-- Per-signature verification returns only 0, 1 or 5. -/
lemma verifySignature_cases (env : Env) (mh sig : List Nat)
    (fps : List Nat × List Nat) (i : Nat) :
    verifySignature env mh sig fps i = 0 ∨ verifySignature env mh sig fps i = 1 ∨
      verifySignature env mh sig fps i = 5 := by
  unfold verifySignature
  cases recoverPublicKey env mh sig
  · simp
  · simp only []
    split_ifs <;> simp

/-- Reading inside a `take` below the cut is reading the original list. -/
lemma getD_take_of_lt (l : List Nat) (n i d : Nat) (h : i < n) :
    (l.take n).getD i d = l.getD i d := by
  simp [List.getD_eq_getElem?_getD, List.getElem?_take_of_lt h]

/-- Reading inside a `drop` shifts the index. -/
lemma getD_drop (l : List Nat) (n i d : Nat) :
    (l.drop n).getD i d = l.getD (n + i) d := by
  simp [List.getD_eq_getElem?_getD, List.getElem?_drop]

/-- The first signature slice of a 132-byte witness has 65 bytes. -/
lemma sig0_length (wd : List Nat) (hwd : wd.length = 132) :
    (wd.take 65).length = 65 := by
  simp [List.length_take, hwd]

/-- The second signature slice of a 132-byte witness has 65 bytes. -/
lemma sig1_length (wd : List Nat) (hwd : wd.length = 132) :
    ((wd.drop 65).take 65).length = 65 := by
  simp [List.length_take, List.length_drop, hwd]

/-- Byte 64 of the first signature slice is witness byte 64. -/
lemma sig0_recoveryByte (wd : List Nat) :
    (wd.take 65).getD 64 0 = wd.getD 64 0 :=
  getD_take_of_lt wd 65 64 0 (by omega)

/-- Byte 64 of the second signature slice is witness byte 129. -/
lemma sig1_recoveryByte (wd : List Nat) :
    ((wd.drop 65).take 65).getD 64 0 = wd.getD 129 0 := by
  rw [getD_take_of_lt _ 65 64 0 (by omega), getD_drop]

/-- The 64-byte payload of the first signature slice. -/
lemma sig0_data (wd : List Nat) : (wd.take 65).take 64 = wd.take 64 := by
  rw [List.take_take]
  norm_num

/-- On a 65-byte signature the length guard of `recoverPublicKey` passes
and the function reduces to the discriminant check plus the primitive. -/
lemma recoverPublicKey_of_length65 (env : Env) (mh sig : List Nat)
    (h : sig.length = 65) :
    recoverPublicKey env mh sig =
      if 3 < sig.getD 64 0 then none
      else env.recover (sig.take 64) (sig.getD 64 0) mh := by
  unfold recoverPublicKey
  simp [h]

/-- Inversion of the success path of `loadAndValidateInputs`. -/
lemma load_ok_inv (sa wd : List Nat) (d : InputData)
    (hok : loadAndValidateInputs sa wd = Except.ok d) :
    77 ≤ sa.length ∧ wd.length = 132 ∧
      validatePubkeyIndices (wd.getD 130 0) (wd.getD 131 0) = 0 ∧
      d = ⟨((sa.drop 37).take 20, (sa.drop 57).take 20),
           (wd.take 65, (wd.drop 65).take 65),
           (wd.getD 130 0, wd.getD 131 0)⟩ := by
  simp only [loadAndValidateInputs] at hok
  split_ifs at hok with h1 h2 h3
  simp only [not_lt, ne_eq, not_not] at h1 h2 h3
  simp only [EXPECTED_SCRIPT_ARGS_LENGTH, PUBKEY_HASH_START_OFFSET,
    SCRIPT_ARGS_PREFIX_LENGTH, CKB_JS_VM_CODE_HASH_LENGTH, HASH_TYPE_LENGTH,
    THRESHOLD_LENGTH, PUBKEY_COUNT_LENGTH, PUBKEY_HASH_LENGTH,
    EXPECTED_WITNESS_DATA_LENGTH, WITNESS_DATA_TOTAL_LENGTH,
    SIGNATURE_LENGTH, PUBKEY_INDEX_LENGTH] at h1 h2
  injection hok with hd
  refine ⟨by omega, by omega, by simpa using h3, ?_⟩
  rw [← hd]
  simp [List.getD_eq_getElem?_getD]

/-- When the structural checks pass and signature 0's check fails, `main`
returns signature 0's check result. -/
lemma main_eq_r0 (env : Env) (sa wd tx : List Nat)
    (hsa : 77 ≤ sa.length) (hwd : wd.length = 132)
    (hsel : validatePubkeyIndices (wd.getD 130 0) (wd.getD 131 0) = 0)
    (h : verifySignature env tx (wd.take 65)
        ((sa.drop 37).take 20, (sa.drop 57).take 20) (wd.getD 130 0) ≠ 0) :
    main env sa wd tx =
      verifySignature env tx (wd.take 65)
        ((sa.drop 37).take 20, (sa.drop 57).take 20) (wd.getD 130 0) := by
  rw [main_unfold, if_neg (by omega), if_neg (by simp [hwd]),
    if_neg (by simpa using hsel), if_pos h]

/-- When the structural checks pass and signature 0's check succeeds,
`main` returns signature 1's check result. -/
lemma main_eq_r1 (env : Env) (sa wd tx : List Nat)
    (hsa : 77 ≤ sa.length) (hwd : wd.length = 132)
    (hsel : validatePubkeyIndices (wd.getD 130 0) (wd.getD 131 0) = 0)
    (h0 : verifySignature env tx (wd.take 65)
        ((sa.drop 37).take 20, (sa.drop 57).take 20) (wd.getD 130 0) = 0) :
    main env sa wd tx =
      verifySignature env tx ((wd.drop 65).take 65)
        ((sa.drop 37).take 20, (sa.drop 57).take 20) (wd.getD 131 0) := by
  rw [main_unfold, if_neg (by omega), if_neg (by simp [hwd]),
    if_neg (by simpa using hsel), if_neg (by simpa using h0)]
  split_ifs with h1 <;> omega

/-- C1: the verifier evaluates checks in the fixed order — configuration
length, proof length, selector validation, then signature 0 before
signature 1 — returning the outcome of the first failing check (it equals
the spec-side ordered pipeline), and a configuration buffer shorter than
the minimum yields code 2 regardless of the proof buffer. -/
theorem claim1_fixed_order_short_circuit (env : Env) (sa wd tx : List Nat) :
    main env sa wd tx = specOrderedPipeline env sa wd tx ∧
      (sa.length < 77 → main env sa wd tx = 2) := by
  have h := main_unfold env sa wd tx
  constructor
  · rw [h]
    simp only [specOrderedPipeline, validatePubkeyIndices_ne_zero_iff]
  · intro hlt
    rw [h, if_pos hlt]

/-- Witness for C1: the empty configuration buffer yields code 2 against
a 132-byte proof buffer. -/
theorem claim1_fixed_order_short_circuit_witness :
    main envReject [] (List.replicate 132 7) [] = 2 :=
  (claim1_fixed_order_short_circuit envReject [] (List.replicate 132 7) []).2
    (by decide)

/-- C2: configuration parsing fails with code 2 exactly when the buffer is
shorter than 77 bytes (37-byte prefix plus 40); on success the two
fingerprints are the 20-byte slices at offsets 37 and 57; and no byte of
the prefix region affects the result. -/
theorem claim2_config_parsing (sa sb wd : List Nat) :
    (loadAndValidateInputs sa wd = Except.error 2 ↔ sa.length < 77) ∧
    (∀ d, loadAndValidateInputs sa wd = Except.ok d →
      d.pubkeyHashes = ((sa.drop 37).take 20, (sa.drop 57).take 20)) ∧
    (sa.length = sb.length → sa.drop 37 = sb.drop 37 →
      loadAndValidateInputs sa wd = loadAndValidateInputs sb wd) := by
  refine ⟨⟨?_, ?_⟩, ?_, ?_⟩
  · intro he
    simp only [loadAndValidateInputs] at he
    split_ifs at he with h1 h2 h3
    all_goals first
      | exact (by simpa using h1)
      | (simp at he; done)
      | (rcases validatePubkeyIndices_cases (wd.getD FIRST_PUBKEY_INDEX_OFFSET 0)
           (wd.getD SECOND_PUBKEY_INDEX_OFFSET 0) with hv | hv
         · exact absurd hv h3
         · rw [hv] at he
           simp at he)
  · intro hlt
    unfold loadAndValidateInputs
    rw [if_pos (by simpa using hlt)]
    rfl
  · intro d hok
    rcases load_ok_inv sa wd d hok with ⟨-, -, -, hd⟩
    rw [hd]
  · intro hlen h37
    have h57 : sa.drop 57 = sb.drop 57 := by
      have hq := congrArg (List.drop 20) h37
      simpa [List.drop_drop] using hq
    simp only [loadAndValidateInputs, FIRST_PUBKEY_HASH_OFFSET,
      SECOND_PUBKEY_HASH_OFFSET, PUBKEY_HASH_START_OFFSET,
      SCRIPT_ARGS_PREFIX_LENGTH, CKB_JS_VM_CODE_HASH_LENGTH, HASH_TYPE_LENGTH,
      THRESHOLD_LENGTH, PUBKEY_COUNT_LENGTH, PUBKEY_HASH_LENGTH,
      EXPECTED_SCRIPT_ARGS_LENGTH]
    rw [hlen, h37, h57]

/-- Witness for C2: the empty configuration buffer is rejected with
code 2. -/
theorem claim2_config_parsing_witness :
    loadAndValidateInputs [] [] = Except.error 2 :=
  (claim2_config_parsing [] [] []).1.mpr (by decide)

/-- C3: with a sufficiently long configuration buffer, the outcome is 3
exactly when the proof buffer length differs from 132, for every proof
content; at length 132 parsing yields the 65-byte signature slices at
offsets 0 and 65 and the selector bytes at offsets 130 and 131. -/
theorem claim3_proof_length (env : Env) (sa wd tx : List Nat)
    (hsa : 77 ≤ sa.length) :
    (main env sa wd tx = 3 ↔ wd.length ≠ 132) ∧
    (∀ d, loadAndValidateInputs sa wd = Except.ok d →
      d.signatures = (wd.take 65, (wd.drop 65).take 65) ∧
      d.pubkeyIndices = (wd.getD 130 0, wd.getD 131 0)) := by
  constructor
  · rw [main_unfold]
    rcases verifySignature_cases env tx (wd.take 65)
        ((sa.drop 37).take 20, (sa.drop 57).take 20) (wd.getD 130 0) with h0 | h0 | h0 <;>
      rcases verifySignature_cases env tx ((wd.drop 65).take 65)
        ((sa.drop 37).take 20, (sa.drop 57).take 20) (wd.getD 131 0) with h1 | h1 | h1 <;>
      rcases validatePubkeyIndices_cases (wd.getD 130 0) (wd.getD 131 0) with hv | hv <;>
      split_ifs <;> first | omega | simp_all
  · intro d hok
    rcases load_ok_inv sa wd d hok with ⟨-, -, -, hd⟩
    rw [hd]
    exact ⟨rfl, rfl⟩

/-- Witness for C3: a 100-byte proof buffer yields code 3. -/
theorem claim3_proof_length_witness :
    main envReject (List.replicate 77 0) (List.replicate 100 0) [] = 3 :=
  (claim3_proof_length envReject (List.replicate 77 0) (List.replicate 100 0) []
    (by simp)).1.mpr (by simp)

/-- C4: with a well-formed configuration buffer and a 132-byte proof
buffer, the outcome is 4 exactly when a selector byte exceeds 1 or the
two selector bytes are equal. -/
theorem claim4_selector_validation (env : Env) (sa wd tx : List Nat)
    (hsa : 77 ≤ sa.length) (hwd : wd.length = 132) :
    main env sa wd tx = 4 ↔
      (1 < wd.getD 130 0 ∨ 1 < wd.getD 131 0 ∨ wd.getD 130 0 = wd.getD 131 0) := by
  have hne := validatePubkeyIndices_ne_zero_iff (wd.getD 130 0) (wd.getD 131 0)
  by_cases hd : 1 < wd.getD 130 0 ∨ 1 < wd.getD 131 0 ∨ wd.getD 130 0 = wd.getD 131 0
  · rw [main_unfold, if_neg (by omega), if_neg (by simp [hwd]), if_pos (hne.mpr hd)]
    exact iff_of_true rfl hd
  · have hv : validatePubkeyIndices (wd.getD 130 0) (wd.getD 131 0) = 0 := by
      by_contra hc
      exact hd (hne.mp hc)
    rw [main_unfold, if_neg (by omega), if_neg (by simp [hwd]),
      if_neg (by simpa using hv)]
    rcases verifySignature_cases env tx (wd.take 65)
        ((sa.drop 37).take 20, (sa.drop 57).take 20) (wd.getD 130 0) with h0 | h0 | h0 <;>
      rcases verifySignature_cases env tx ((wd.drop 65).take 65)
        ((sa.drop 37).take 20, (sa.drop 57).take 20) (wd.getD 131 0) with h1 | h1 | h1 <;>
      split_ifs <;> first | omega | simp_all

/-- Witness for C4: equal selectors (0,0) yield code 4. -/
theorem claim4_selector_validation_witness :
    main envReject (List.replicate 77 0) (List.replicate 132 0) [] = 4 :=
  (claim4_selector_validation envReject (List.replicate 77 0)
    (List.replicate 132 0) [] (by simp) (by simp)).mpr (by decide)

/-- C5: a recovery-discriminant byte above 3 at proof offset 64 yields
code 5 for every environment (so without consulting the recovery
primitive); if signature 0 verifies and the byte at proof offset 129 is
above 3, the outcome is likewise 5; and when the discriminant is in 0–3
but the recovery primitive rejects the signature, the same code 5
results. -/
theorem claim5_recovery_id (env : Env) (sa wd tx : List Nat)
    (hsa : 77 ≤ sa.length) (hwd : wd.length = 132)
    (hsel : validatePubkeyIndices (wd.getD 130 0) (wd.getD 131 0) = 0) :
    (3 < wd.getD 64 0 → main env sa wd tx = 5) ∧
    (verifySignature env tx (wd.take 65)
        ((sa.drop 37).take 20, (sa.drop 57).take 20) (wd.getD 130 0) = 0 →
      3 < wd.getD 129 0 → main env sa wd tx = 5) ∧
    (wd.getD 64 0 ≤ 3 → env.recover (wd.take 64) (wd.getD 64 0) tx = none →
      main env sa wd tx = 5) ∧
    (verifySignature env tx (wd.take 65)
        ((sa.drop 37).take 20, (sa.drop 57).take 20) (wd.getD 130 0) = 0 →
      wd.getD 129 0 ≤ 3 →
      env.recover ((wd.drop 65).take 64) (wd.getD 129 0) tx = none →
      main env sa wd tx = 5) := by
  have hrec0 : recoverPublicKey env tx (wd.take 65) =
      if 3 < wd.getD 64 0 then none
      else env.recover (wd.take 64) (wd.getD 64 0) tx := by
    rw [recoverPublicKey_of_length65 env tx (wd.take 65) (sig0_length wd hwd),
      sig0_recoveryByte, sig0_data]
  have hrec1 : recoverPublicKey env tx ((wd.drop 65).take 65) =
      if 3 < wd.getD 129 0 then none
      else env.recover ((wd.drop 65).take 64) (wd.getD 129 0) tx := by
    rw [recoverPublicKey_of_length65 env tx ((wd.drop 65).take 65)
      (sig1_length wd hwd), sig1_recoveryByte, sig0_data (wd.drop 65)]
  refine ⟨?_, ?_, ?_, ?_⟩
  · intro h
    have hv0 : verifySignature env tx (wd.take 65)
        ((sa.drop 37).take 20, (sa.drop 57).take 20) (wd.getD 130 0) = 5 := by
      unfold verifySignature
      rw [hrec0, if_pos h]
      rfl
    rw [main_eq_r0 env sa wd tx hsa hwd hsel (by rw [hv0]; decide), hv0]
  · intro h0 h
    have hv1 : verifySignature env tx ((wd.drop 65).take 65)
        ((sa.drop 37).take 20, (sa.drop 57).take 20) (wd.getD 131 0) = 5 := by
      unfold verifySignature
      rw [hrec1, if_pos h]
      rfl
    rw [main_eq_r1 env sa wd tx hsa hwd hsel h0, hv1]
  · intro hle hrej
    have hv0 : verifySignature env tx (wd.take 65)
        ((sa.drop 37).take 20, (sa.drop 57).take 20) (wd.getD 130 0) = 5 := by
      unfold verifySignature
      rw [hrec0, if_neg (by omega), hrej]
      rfl
    rw [main_eq_r0 env sa wd tx hsa hwd hsel (by rw [hv0]; decide), hv0]
  · intro h0 hle hrej
    have hv1 : verifySignature env tx ((wd.drop 65).take 65)
        ((sa.drop 37).take 20, (sa.drop 57).take 20) (wd.getD 131 0) = 5 := by
      unfold verifySignature
      rw [hrec1, if_neg (by omega), hrej]
      rfl
    rw [main_eq_r1 env sa wd tx hsa hwd hsel h0, hv1]

set_option maxRecDepth 10000 in
/-- Witness for C5: a proof buffer whose signature-0 discriminant byte is
4 yields code 5. -/
theorem claim5_recovery_id_witness :
    main envReject saZeros77 wdBadRecId0 [] = 5 :=
  (claim5_recovery_id envReject saZeros77 wdBadRecId0 []
    (by decide) (by decide) (by decide)).1 (by decide)

/-- C6: the fingerprint of a recovered key is the 20-byte truncation of
the environment content hash of its 65 bytes; if that fingerprint differs
from the configured fingerprint selected by the signature's selector the
outcome is 1, and if both signatures' fingerprints match the outcome
is 0. -/
theorem claim6_fingerprint_match (env : Env) (sa wd tx pk0 : List Nat)
    (hsa : 77 ≤ sa.length) (hwd : wd.length = 132)
    (hsel : validatePubkeyIndices (wd.getD 130 0) (wd.getD 131 0) = 0)
    (hrec0 : recoverPublicKey env tx (wd.take 65) = some pk0) :
    hashPublicKey env pk0 = (env.hashCkb pk0).take 20 ∧
    ((env.hashCkb pk0).take 20 ≠
        getExpectedHash ((sa.drop 37).take 20, (sa.drop 57).take 20) (wd.getD 130 0) →
      main env sa wd tx = 1) ∧
    (∀ pk1, (env.hashCkb pk0).take 20 =
        getExpectedHash ((sa.drop 37).take 20, (sa.drop 57).take 20) (wd.getD 130 0) →
      recoverPublicKey env tx ((wd.drop 65).take 65) = some pk1 →
      (((env.hashCkb pk1).take 20 ≠
          getExpectedHash ((sa.drop 37).take 20, (sa.drop 57).take 20) (wd.getD 131 0) →
        main env sa wd tx = 1) ∧
       ((env.hashCkb pk1).take 20 =
          getExpectedHash ((sa.drop 37).take 20, (sa.drop 57).take 20) (wd.getD 131 0) →
        main env sa wd tx = 0))) := by
  have hv0eq : verifySignature env tx (wd.take 65)
      ((sa.drop 37).take 20, (sa.drop 57).take 20) (wd.getD 130 0) =
      if (env.hashCkb pk0).take 20 ≠
          getExpectedHash ((sa.drop 37).take 20, (sa.drop 57).take 20) (wd.getD 130 0)
      then 1 else 0 := by
    unfold verifySignature
    rw [hrec0]
    simp [hashPublicKey]
  refine ⟨rfl, ?_, ?_⟩
  · intro hne
    rw [main_eq_r0 env sa wd tx hsa hwd hsel (by rw [hv0eq, if_pos hne]; decide),
      hv0eq, if_pos hne]
  · intro pk1 heq hrec1
    have hv0 : verifySignature env tx (wd.take 65)
        ((sa.drop 37).take 20, (sa.drop 57).take 20) (wd.getD 130 0) = 0 := by
      rw [hv0eq, if_neg (by simp [heq])]
    have hv1eq : verifySignature env tx ((wd.drop 65).take 65)
        ((sa.drop 37).take 20, (sa.drop 57).take 20) (wd.getD 131 0) =
        if (env.hashCkb pk1).take 20 ≠
            getExpectedHash ((sa.drop 37).take 20, (sa.drop 57).take 20) (wd.getD 131 0)
        then 1 else 0 := by
      unfold verifySignature
      rw [hrec1]
      simp [hashPublicKey]
    constructor
    · intro hne1
      rw [main_eq_r1 env sa wd tx hsa hwd hsel hv0, hv1eq, if_pos hne1]
    · intro heq1
      rw [main_eq_r1 env sa wd tx hsa hwd hsel hv0, hv1eq, if_neg (by simp [heq1])]

set_option maxRecDepth 10000 in
/-- Witness for C6: with an environment whose hash of the recovered key
matches both configured fingerprints, the outcome is 0. -/
theorem claim6_fingerprint_match_witness :
    main envAccept saOnes wd132 [] = 0 :=
  ((claim6_fingerprint_match envAccept saOnes wd132 [] (List.replicate 65 1)
      (by decide) (by decide) (by decide) (by decide)).2.2
    (List.replicate 65 1) (by decide) (by decide)).2 (by decide)

/-- C7: two runs agreeing on the configuration buffer, message hash,
signature 0 bytes and both selectors, but differing arbitrarily in the
bytes of signature 1, both return signature 0's failing check code
whenever that check fails — signature 1's content never influences the
outcome, and it is never recovered or fingerprinted. -/
theorem claim7_sig1_noninterference (env : Env) (sa wd wd2 tx : List Nat)
    (hsa : 77 ≤ sa.length) (hwd : wd.length = 132)
    (hlen : wd.length = wd2.length) (hsig0 : wd.take 65 = wd2.take 65)
    (hseltail : wd.drop 130 = wd2.drop 130)
    (hsel : validatePubkeyIndices (wd.getD 130 0) (wd.getD 131 0) = 0)
    (hfail : verifySignature env tx (wd.take 65)
        ((sa.drop 37).take 20, (sa.drop 57).take 20) (wd.getD 130 0) ≠ 0) :
    main env sa wd tx =
      verifySignature env tx (wd.take 65)
        ((sa.drop 37).take 20, (sa.drop 57).take 20) (wd.getD 130 0) ∧
    main env sa wd2 tx =
      verifySignature env tx (wd.take 65)
        ((sa.drop 37).take 20, (sa.drop 57).take 20) (wd.getD 130 0) := by
  have hg130 : wd.getD 130 0 = wd2.getD 130 0 := by
    have hq := congrArg (fun l => List.getD l 0 0) hseltail
    simpa [getD_drop] using hq
  have hg131 : wd.getD 131 0 = wd2.getD 131 0 := by
    have hq := congrArg (fun l => List.getD l 1 0) hseltail
    simpa [getD_drop] using hq
  have hwd2 : wd2.length = 132 := by omega
  have hsel2 : validatePubkeyIndices (wd2.getD 130 0) (wd2.getD 131 0) = 0 := by
    rw [← hg130, ← hg131]
    exact hsel
  have hv2 : verifySignature env tx (wd2.take 65)
      ((sa.drop 37).take 20, (sa.drop 57).take 20) (wd2.getD 130 0) =
      verifySignature env tx (wd.take 65)
        ((sa.drop 37).take 20, (sa.drop 57).take 20) (wd.getD 130 0) := by
    rw [← hsig0, ← hg130]
  refine ⟨main_eq_r0 env sa wd tx hsa hwd hsel hfail, ?_⟩
  rw [main_eq_r0 env sa wd2 tx hsa hwd2 hsel2 (by rw [hv2]; exact hfail), hv2]

set_option maxRecDepth 10000 in
/-- Witness for C7: with recovery rejecting, runs on `wd132` and on
`wdAltSig1` (which differs only in signature 1's bytes) both return the
code of signature 0's failed check. -/
theorem claim7_sig1_noninterference_witness :
    main envReject saZeros77 wd132 [] =
      verifySignature envReject [] (wd132.take 65)
        ((saZeros77.drop 37).take 20, (saZeros77.drop 57).take 20)
        (wd132.getD 130 0) ∧
    main envReject saZeros77 wdAltSig1 [] =
      verifySignature envReject [] (wd132.take 65)
        ((saZeros77.drop 37).take 20, (saZeros77.drop 57).take 20)
        (wd132.getD 130 0) :=
  claim7_sig1_noninterference envReject saZeros77 wd132 wdAltSig1 []
    (by decide) (by decide) (by decide) (by decide) (by decide) (by decide)
    (by decide)

/-- C8: verification is deterministic — for fixed inputs any two results
coincide — and the outcome lies in the closed code set {0,1,2,3,4,5}. -/
theorem claim8_determinism_closed_codes (env : Env) (sa wd tx : List Nat)
    (r r2 : Nat) (h : main env sa wd tx = r) (h2 : main env sa wd tx = r2) :
    r = r2 ∧ r ∈ ({0, 1, 2, 3, 4, 5} : Set Nat) := by
  refine ⟨h.symm.trans h2, ?_⟩
  rw [← h, main_unfold]
  simp only [Set.mem_insert_iff, Set.mem_singleton_iff]
  rcases verifySignature_cases env tx (wd.take 65)
      ((sa.drop 37).take 20, (sa.drop 57).take 20) (wd.getD 130 0) with h0 | h0 | h0 <;>
    rcases verifySignature_cases env tx ((wd.drop 65).take 65)
      ((sa.drop 37).take 20, (sa.drop 57).take 20) (wd.getD 131 0) with h1 | h1 | h1 <;>
    split_ifs <;> first | omega | simp_all

/-- Witness for C8 at a concrete input: the two results of running the
verifier on empty buffers coincide and lie in the closed code set. -/
theorem claim8_determinism_closed_codes_witness :
    (2 : Nat) = 2 ∧ (2 : Nat) ∈ ({0, 1, 2, 3, 4, 5} : Set Nat) :=
  claim8_determinism_closed_codes envReject [] [] [] 2 2 (by decide) (by decide)

/-- C9: every signature handed to `recoverPublicKey` by the verifier is a
65-byte slice of the already-validated 132-byte proof buffer, so the
length-guard branch of `recoverPublicKey` never fires: on parsed
signatures the function equals its guard-free body. -/
theorem claim9_length_guard_unreachable (sa wd : List Nat) (d : InputData)
    (hok : loadAndValidateInputs sa wd = Except.ok d) :
    d.signatures.1.length = 65 ∧ d.signatures.2.length = 65 ∧
    (∀ env mh,
      recoverPublicKey env mh d.signatures.1 =
        (if 3 < d.signatures.1.getD 64 0 then none
         else env.recover (d.signatures.1.take 64) (d.signatures.1.getD 64 0) mh) ∧
      recoverPublicKey env mh d.signatures.2 =
        (if 3 < d.signatures.2.getD 64 0 then none
         else env.recover (d.signatures.2.take 64) (d.signatures.2.getD 64 0) mh)) := by
  rcases load_ok_inv sa wd d hok with ⟨hsa, hwd, hsel, hd⟩
  subst hd
  refine ⟨by simp [List.length_take, hwd], by simp [List.length_take, List.length_drop, hwd], ?_⟩
  intro env mh
  exact ⟨recoverPublicKey_of_length65 env mh _ (sig0_length wd hwd),
         recoverPublicKey_of_length65 env mh _ (sig1_length wd hwd)⟩

set_option maxRecDepth 10000 in
/-- Witness for C9: the parsed data of the concrete valid buffers has
65-byte signatures on which the length guard is bypassed. -/
theorem claim9_length_guard_unreachable_witness :
    recoverPublicKey envReject [] d132.signatures.1 =
      (if 3 < d132.signatures.1.getD 64 0 then none
       else envReject.recover (d132.signatures.1.take 64)
         (d132.signatures.1.getD 64 0) []) :=
  ((claim9_length_guard_unreachable saZeros77 wd132 d132 (by rfl)).2.2
    envReject []).1

/-- C10: the secp256k1 recovery primitive is only invoked with a 64-byte
payload and a discriminant in 0–3: two environments that agree on that
domain (and on the content hash) yield identical verification outcomes on
every input. -/
theorem claim10_recover_precondition (env env2 : Env) (sa wd tx : List Nat)
    (hrec : ∀ sigData recId msgHash, sigData.length = 64 → recId ≤ 3 →
      env.recover sigData recId msgHash = env2.recover sigData recId msgHash)
    (hhash : env.hashCkb = env2.hashCkb) :
    main env sa wd tx = main env2 sa wd tx := by
  have hrpk : ∀ mh sig, recoverPublicKey env mh sig = recoverPublicKey env2 mh sig := by
    intro mh sig
    by_cases h1 : sig.length = 65
    · rw [recoverPublicKey_of_length65 env mh sig h1,
        recoverPublicKey_of_length65 env2 mh sig h1]
      by_cases h2 : 3 < sig.getD 64 0
      · rw [if_pos h2, if_pos h2]
      · rw [if_neg h2, if_neg h2]
        exact hrec _ _ _ (by simp [List.length_take, h1]) (by omega)
    · unfold recoverPublicKey
      rw [if_pos (by simpa using h1), if_pos (by simpa using h1)]
  have hvs : ∀ mh sig fps i,
      verifySignature env mh sig fps i = verifySignature env2 mh sig fps i := by
    intro mh sig fps i
    unfold verifySignature
    rw [hrpk]
    cases recoverPublicKey env2 mh sig <;> simp [hashPublicKey, hhash]
  rw [main_unfold env sa wd tx, main_unfold env2 sa wd tx]
  simp only [hvs]

/-- Witness for C10: `envReject` and `envRejectLow` agree on discriminants
0–3, hence produce the same outcome on the concrete valid buffers. -/
theorem claim10_recover_precondition_witness :
    main envReject saZeros77 wd132 [] = main envRejectLow saZeros77 wd132 [] :=
  claim10_recover_precondition envReject envRejectLow saZeros77 wd132 []
    (fun sigData recId msgHash hl hr => by
      simp [envReject, envRejectLow, hr])
    rfl

end TwoOfTwo
